import Mathlib

/-!
Verification development for the `xcorplatform-client` repository.

The heart of the embedding is `src/src/client-credentials.ts`, the OAuth2
client-credentials token manager (class `ClientCredentials`), plus the
request-routing fragment of `XcorPlatformClient.send` from
`src/src/xcorplatform-client.ts`.

Modelling conventions:
* JavaScript numbers arising here (epoch milliseconds from `Date.now()`,
  `expires_in` seconds, the refresh margin) are modelled as `Int`; all the
  arithmetic the source performs on them is integral.
* The axios transport is abstracted: a fetch cycle takes a `FetchOutcome`
  describing how the awaited `httpClient.post` resolved (a parsed response
  body, or a rejection caught by the `catch` block).  The request that the
  cycle issues is returned explicitly so that theorems can count endpoint
  invocations.
* The `intervalId` field of the class holds an opaque `NodeJS.Timeout`
  handle.  Handles are always truthy, `clearInterval` on an already
  cancelled handle is a no-op, and the code clears any previous timer
  before arming a new one, so at any instant at most one live timer exists
  and it is the one referenced by `intervalId`.  The state therefore
  models the live timer directly: `timer = some d` means a pending
  interval armed with delay argument `d`, `timer = none` means no pending
  timer.
-/

set_option autoImplicit false

/-- Embedding of `ClientCredentialsConfig` (client-credentials.ts lines 6-14)
after the constructor's defaulting (lines 36-44): `refreshBeforeExpiration`
defaults to `60`, `disableBackgroundRefresh` to `false`.  The `httpClient`
field is abstracted into `FetchOutcome`. -/
structure ClientCredentialsConfig where
  clientId : String
  clientSecret : String
  tokenEndpoint : String
  scopes : List String
  refreshBeforeExpiration : Int := 60
  disableBackgroundRefresh : Bool := false
deriving DecidableEq

/-- The mutable per-instance state of `ClientCredentials`:
`accessToken?` (line 27), `expiration?` (line 28) and the live background
timer derived from `intervalId` (line 29) as explained in the header. -/
structure CCState where
  accessToken : Option String
  expiration : Option Int
  timer : Option Int
deriving DecidableEq

/-- State of a freshly constructed `ClientCredentials` instance: the
constructor (lines 36-44) leaves `accessToken`, `expiration` and
`intervalId` unset. -/
def initialState : CCState :=
  { accessToken := none, expiration := none, timer := none }

/-- The parsed JSON body of a successful token-endpoint response:
`response.data.access_token` and `response.data.expires_in`
(lines 82-85), per the collaborator contract a token string and a
lifetime in seconds. -/
structure TokenResponse where
  access_token : String
  expires_in : Int
deriving DecidableEq

/-- How the awaited `httpClient.post` of a fetch cycle resolves: with a
response body, or with a rejection (network error, non-2xx status, ...)
that lands in the `catch` block of `updateToken`. -/
inductive FetchOutcome where
  | success (tr : TokenResponse)
  | failure
deriving DecidableEq

/-- An HTTP request as issued by the manager: method, URL, form-encoded
body fields (in order) and the content-type header. -/
structure HttpRequest where
  method : String
  url : String
  form : List (String × String)
  contentType : String
deriving DecidableEq

/-- The single POST issued by `updateToken` (lines 68-81): form fields
`grant_type=client_credentials`, `client_id`, `client_secret` and
`scope = this.scopes.join(' ')` (space-joined), with header
`content-type: application/x-www-form-urlencoded`.  JavaScript
`Array.prototype.join(' ')` is `String.intercalate " "`. -/
def tokenRequest (cfg : ClientCredentialsConfig) : HttpRequest :=
  { method := "post"
    url := cfg.tokenEndpoint
    form := [("grant_type", "client_credentials"),
             ("client_id", cfg.clientId),
             ("client_secret", cfg.clientSecret),
             ("scope", String.intercalate " " cfg.scopes)]
    contentType := "application/x-www-form-urlencoded" }

/-- Embedding of `updateToken` (lines 63-95).  Line by line:
* lines 64-66: `if (this.intervalId) clearInterval(this.intervalId)` —
  the pending timer, if any, is cancelled;
* lines 68-81: the POST `tokenRequest cfg` is issued (returned in the
  second component); `outcome` says how it resolved;
* lines 82-85 (success): `accessToken := response.data.access_token`,
  `expiration := Date.now() + (expires_in - refreshBeforeExpiration) * 1000`;
* lines 86-91 (success): if background refresh is enabled,
  `intervalId := setInterval(() => this.updateToken(), this.expiration)` —
  note the delay argument passed to `setInterval` is `this.expiration`
  itself, the absolute epoch instant;
* lines 92-94 (failure): the error is only logged; no field is written
  after the initial clear. -/
def updateToken (cfg : ClientCredentialsConfig) (now : Int) (outcome : FetchOutcome)
    (s : CCState) : CCState × List HttpRequest :=
  let s1 : CCState := { s with timer := none }
  match outcome with
  | FetchOutcome.success tr =>
      let expiration : Int := now + (tr.expires_in - cfg.refreshBeforeExpiration) * 1000
      let s2 : CCState :=
        { s1 with accessToken := some tr.access_token, expiration := some expiration }
      let s3 : CCState :=
        if !cfg.disableBackgroundRefresh then { s2 with timer := some expiration } else s2
      (s3, [tokenRequest cfg])
  | FetchOutcome.failure => (s1, [tokenRequest cfg])

/-- The staleness condition of `getAccessToken` (lines 50-54):
`this.accessToken === undefined || this.expiration === undefined ||
this.expiration < Date.now()`. -/
def needsRefresh (now : Int) (s : CCState) : Bool :=
  match s.accessToken, s.expiration with
  | none, _ => true
  | _, none => true
  | some _, some e => decide (e < now)

/-- Embedding of `getAccessToken` (lines 49-58): if the staleness
condition holds, await `updateToken`, then return `this.accessToken!`.
There is no throw path — `updateToken` catches every error — so the
resolved value is the (possibly absent) token field: the first component
is what the returned promise resolves with, the second the state after
the call, the third the list of endpoint requests issued. -/
def getAccessToken (cfg : ClientCredentialsConfig) (now : Int) (outcome : FetchOutcome)
    (s : CCState) : Option String × CCState × List HttpRequest :=
  if needsRefresh now s then
    ((updateToken cfg now outcome s).1.accessToken,
      (updateToken cfg now outcome s).1,
      (updateToken cfg now outcome s).2)
  else
    (s.accessToken, s, [])

/-- Embedding of `close` (lines 100-106): cancel the pending timer, then
set `accessToken` and `expiration` to `undefined`. -/
def close (s : CCState) : CCState :=
  { s with timer := none, accessToken := none, expiration := none }

/-- A sample configuration used to instantiate universally quantified
theorems on concrete inputs (margin and background-refresh flag at their
constructor defaults). -/
def cfg0 : ClientCredentialsConfig :=
  { clientId := "client-id"
    clientSecret := "client-secret"
    tokenEndpoint := "https://auth.example.com/connect/token"
    scopes := ["read", "write"] }

/-- States reachable from construction by any sequence of
`getAccessToken`, `updateToken` and `close` calls, at arbitrary times and
with arbitrary fetch outcomes. -/
inductive Reachable (cfg : ClientCredentialsConfig) : CCState → Prop where
  | init : Reachable cfg initialState
  | getStep (s : CCState) (now : Int) (outcome : FetchOutcome) :
      Reachable cfg s → Reachable cfg (getAccessToken cfg now outcome s).2.1
  | updateStep (s : CCState) (now : Int) (outcome : FetchOutcome) :
      Reachable cfg s → Reachable cfg (updateToken cfg now outcome s).1
  | closeStep (s : CCState) : Reachable cfg s → Reachable cfg (close s)

/-! ### Interleaving model of concurrent `getAccessToken` callers

`getAccessToken` has two await points that matter for interleavings: the
staleness check (lines 50-54) runs synchronously, and a caller that enters
`updateToken` suspends at `await this.httpClient.post(...)` (line 68),
resuming only when its POST resolves, at which point lines 82-91 (or the
catch block) and the `return this.accessToken!` of line 57 run.  Callers
are indistinguishable, so the system tracks how many callers are in each
phase; a schedule is a list of atomic events (one caller evaluates its
check / one suspended caller's POST resolves). -/

/-- An atomic scheduling event of one concurrent `getAccessToken` caller. -/
inductive CallerAction where
  | check
  | finishFetch
deriving DecidableEq

/-- Global state of a set of concurrent `getAccessToken` callers:
the manager state, the number of callers that have not yet evaluated the
staleness check, the number suspended awaiting their own POST, the
resolved values of completed callers (most recent first), and the total
number of POSTs issued to the token endpoint. -/
structure ConcurrentRun where
  mgr : CCState
  waitingCheck : Nat
  inFetch : Nat
  results : List (Option String)
  fetchCount : Nat
deriving DecidableEq

/-- One scheduling event.  `check`: a not-yet-started caller evaluates
lines 50-54; if the token is stale it enters `updateToken` (and will
suspend at the POST), otherwise it resolves at once with the cached
token.  `finishFetch`: the POST of one suspended caller resolves with
`outcome`; its `updateToken` body completes against the current manager
state and the caller resolves with the token field it then observes. -/
def stepCaller (cfg : ClientCredentialsConfig) (now : Int) (outcome : FetchOutcome)
    (r : ConcurrentRun) : CallerAction → ConcurrentRun
  | CallerAction.check =>
      if r.waitingCheck = 0 then r
      else if needsRefresh now r.mgr then
        { r with waitingCheck := r.waitingCheck - 1, inFetch := r.inFetch + 1 }
      else
        { r with waitingCheck := r.waitingCheck - 1,
                 results := r.mgr.accessToken :: r.results }
  | CallerAction.finishFetch =>
      if r.inFetch = 0 then r
      else
        { mgr := (updateToken cfg now outcome r.mgr).1
          waitingCheck := r.waitingCheck
          inFetch := r.inFetch - 1
          results := (updateToken cfg now outcome r.mgr).1.accessToken :: r.results
          fetchCount := r.fetchCount + 1 }

/-- Run a schedule of caller events. -/
def runCallers (cfg : ClientCredentialsConfig) (now : Int) (outcome : FetchOutcome) :
    ConcurrentRun → List CallerAction → ConcurrentRun
  | r, [] => r
  | r, a :: rest => runCallers cfg now outcome (stepCaller cfg now outcome r a) rest

/-- `n` concurrent callers against a freshly constructed manager. -/
def initialRun (n : Nat) : ConcurrentRun :=
  { mgr := initialState, waitingCheck := n, inFetch := 0, results := [], fetchCount := 0 }

/-- The manager state after a fetch at time `1000000` whose response
lifetime `expires_in = 60` exactly equals the default refresh margin `60`:
the stored expiration is `1000000 + (60 - 60) * 1000 = 1000000`, the fetch
instant itself. -/
def boundaryState : CCState :=
  (updateToken cfg0 1000000 (FetchOutcome.success ⟨"tok", 60⟩) initialState).1

/-! ### Embedding of the `send` data-routing fragment of
`src/src/xcorplatform-client.ts` (lines 187-201) -/

/-- A JavaScript value as far as `send`'s data handling observes it:
`request.props.data` is only tested for truthiness and passed through.
(Number is modelled as `Int`; the float-only values `NaN`/`-0` are not
modelled.  All objects and arrays are truthy, so they are collapsed into
one constructor.) -/
inductive JsValue where
  | undef
  | nullv
  | boolean (b : Bool)
  | number (n : Int)
  | string (s : String)
  | object
deriving DecidableEq

/-- JavaScript truthiness of a `JsValue`. -/
def JsValue.truthy : JsValue → Bool
  | JsValue.undef => false
  | JsValue.nullv => false
  | JsValue.boolean b => b
  | JsValue.number n => decide (n ≠ 0)
  | JsValue.string s => decide (s ≠ "")
  | JsValue.object => true

/-- The data routing computed for the axios request of `send`:
`params` (query parameters) and `data` (request body). -/
structure RoutedRequest where
  params : JsValue
  body : JsValue
deriving DecidableEq

/-- Embedding of `XcorPlatformClient.send` lines 187-193:
`if (request.props.method === 'delete' && request.props.data) throw new
Error('Delete requests cannot have data')`, thrown before the
`this.client.request` call; otherwise
`params = method === 'get' ? data : undefined` and
`data = method !== 'get' ? data : undefined`.  `Except.error` models the
throw (no network request is constructed), `Except.ok` carries the
routing used by the request. -/
def routeSendData (method : String) (data : JsValue) : Except String RoutedRequest :=
  if method = "delete" && data.truthy then
    Except.error "Delete requests cannot have data"
  else
    Except.ok { params := if method = "get" then data else JsValue.undef
                body := if !(method = "get") then data else JsValue.undef }

/-- Characterisation of a successful `updateToken`: the resulting state is
independent of the previous one (every field is overwritten), and exactly
one POST is issued. -/
theorem updateToken_success (cfg : ClientCredentialsConfig) (now : Int)
    (tr : TokenResponse) (s : CCState) :
    updateToken cfg now (FetchOutcome.success tr) s
      = ({ accessToken := some tr.access_token,
           expiration := some (now + (tr.expires_in - cfg.refreshBeforeExpiration) * 1000),
           timer := if cfg.disableBackgroundRefresh then none
                    else some (now + (tr.expires_in - cfg.refreshBeforeExpiration) * 1000) },
         [tokenRequest cfg]) := by
  by_cases h : cfg.disableBackgroundRefresh <;> simp [updateToken, h]

/-- Characterisation of a failed `updateToken`: only the timer is
cleared, and exactly one POST was still issued. -/
theorem updateToken_failure (cfg : ClientCredentialsConfig) (now : Int) (s : CCState) :
    updateToken cfg now FetchOutcome.failure s
      = ({ s with timer := none }, [tokenRequest cfg]) := rfl

/-- Running a concatenated schedule is running the two parts in sequence. -/
theorem runCallers_append (cfg : ClientCredentialsConfig) (now : Int)
    (outcome : FetchOutcome) (r : ConcurrentRun) (l1 l2 : List CallerAction) :
    runCallers cfg now outcome r (l1 ++ l2)
      = runCallers cfg now outcome (runCallers cfg now outcome r l1) l2 := by
  induction l1 generalizing r with
  | nil => rfl
  | cons a t ih =>
      rw [List.cons_append]
      show runCallers cfg now outcome (stepCaller cfg now outcome r a) (t ++ l2) = _
      rw [ih]
      rfl

/-- While the manager's token is stale and only `check` events run, every
event moves one caller from the waiting phase into the fetching phase and
nothing else changes. -/
theorem checkPhase (cfg : ClientCredentialsConfig) (now : Int) (outcome : FetchOutcome) :
    ∀ (k : Nat) (r : ConcurrentRun), k ≤ r.waitingCheck → needsRefresh now r.mgr = true →
    runCallers cfg now outcome r (List.replicate k CallerAction.check)
      = { r with waitingCheck := r.waitingCheck - k, inFetch := r.inFetch + k } := by
  intro k
  induction k with
  | zero => rintro ⟨m, w, f, res, cnt⟩ _ _; simp [runCallers]
  | succ k ih =>
      rintro ⟨m, w, f, res, cnt⟩ hk hn
      replace hk : k + 1 ≤ w := hk
      have hw : ¬(w = 0) := by omega
      rw [List.replicate_succ]
      simp only [runCallers, stepCaller, hw, if_false, hn, if_true]
      rw [ih ⟨m, w - 1, f + 1, res, cnt⟩ (show k ≤ w - 1 by omega) hn]
      simp only [ConcurrentRun.mk.injEq, and_true, true_and]
      constructor <;> omega

/-- When `k` suspended callers' POSTs resolve successfully one after the
other, each resolution issues its own fetch (the counter increases by `k`)
and each caller resolves with the token its own fetch stored. -/
theorem fetchPhase (cfg : ClientCredentialsConfig) (now : Int) (tr : TokenResponse) :
    ∀ (k : Nat) (r : ConcurrentRun), r.inFetch = k →
    (runCallers cfg now (FetchOutcome.success tr) r
        (List.replicate k CallerAction.finishFetch)).fetchCount = r.fetchCount + k ∧
    (runCallers cfg now (FetchOutcome.success tr) r
        (List.replicate k CallerAction.finishFetch)).results
      = List.replicate k (some tr.access_token) ++ r.results := by
  intro k
  induction k with
  | zero => rintro ⟨m, w, f, res, cnt⟩ _; simp [runCallers]
  | succ k ih =>
      rintro ⟨m, w, f, res, cnt⟩ hr
      replace hr : f = k + 1 := hr
      have hf : ¬(f = 0) := by omega
      rw [List.replicate_succ]
      simp only [runCallers, stepCaller, hf, if_false]
      have htok : (updateToken cfg now (FetchOutcome.success tr) m).1.accessToken
          = some tr.access_token := by rw [updateToken_success]
      obtain ⟨h1, h2⟩ := ih
        ⟨(updateToken cfg now (FetchOutcome.success tr) m).1, w, f - 1,
          (updateToken cfg now (FetchOutcome.success tr) m).1.accessToken :: res,
          cnt + 1⟩ (show f - 1 = k by omega)
      refine ⟨?_, ?_⟩
      · simp only at h1
        rw [h1]; omega
      · simp only at h2
        rw [h2, htok, List.replicate_succ']
        simp

/-- A successful or failed `updateToken` keeps the token and expiration
fields present-or-absent together. -/
theorem updateToken_pair_present (cfg : ClientCredentialsConfig) (now : Int)
    (outcome : FetchOutcome) (s : CCState)
    (h : s.accessToken.isSome = s.expiration.isSome) :
    (updateToken cfg now outcome s).1.accessToken.isSome
      = (updateToken cfg now outcome s).1.expiration.isSome := by
  cases outcome with
  | success tr => rw [updateToken_success]; simp
  | failure => simpa [updateToken_failure] using h

/-- C1: with no cached token, a failed fetch cycle does NOT make
`getAccessToken` fail — `updateToken` catches the error (lines 92-94) and
`getAccessToken` returns `this.accessToken!` (line 57), so the promise
resolves with `undefined` (`none`), contradicting the declared
`Promise<string>` type and the spec's `AuthenticationFailure` contract.
The Token State does remain empty, as the claim states. -/
theorem getAccessToken_first_failure_resolves_undefined
    (cfg : ClientCredentialsConfig) (now : Int) (s : CCState)
    (hTok : s.accessToken = none) (hExp : s.expiration = none) :
    (getAccessToken cfg now FetchOutcome.failure s).1 = none ∧
    (getAccessToken cfg now FetchOutcome.failure s).2.1.accessToken = none ∧
    (getAccessToken cfg now FetchOutcome.failure s).2.1.expiration = none := by
  have hn : needsRefresh now s = true := by
    simp [needsRefresh, hTok]
  simp [getAccessToken, hn, updateToken_failure, hTok, hExp]

/-- Witness for `getAccessToken_first_failure_resolves_undefined` at the
freshly constructed state. -/
theorem getAccessToken_first_failure_resolves_undefined_witness :
    (getAccessToken cfg0 1000 FetchOutcome.failure initialState).1 = none ∧
    (getAccessToken cfg0 1000 FetchOutcome.failure initialState).2.1.accessToken = none ∧
    (getAccessToken cfg0 1000 FetchOutcome.failure initialState).2.1.expiration = none :=
  getAccessToken_first_failure_resolves_undefined cfg0 1000 initialState rfl rfl

/-- C2 counterexample: two concurrent `getAccessToken` callers both
evaluate the staleness check while no token is cached (both before either
POST resolves); each then performs its own fetch, so the token endpoint is
invoked twice, not exactly once — there is no single-flight guard. -/
theorem two_callers_two_fetches :
    (runCallers cfg0 0 (FetchOutcome.success ⟨"tok", 3600⟩) (initialRun 2)
        [CallerAction.check, CallerAction.check,
         CallerAction.finishFetch, CallerAction.finishFetch]).fetchCount = 2 ∧
    (2 : Nat) ≠ 1 := by
  refine ⟨rfl, by decide⟩

/-- C2 (amended): `N` concurrent callers that all observe an
expired-or-absent token before any fetch completes each perform their own
network fetch — `N` POSTs in total — and each caller resolves with the
token stored by its own fetch. -/
theorem concurrent_callers_one_fetch_each (cfg : ClientCredentialsConfig)
    (now : Int) (tr : TokenResponse) (n : Nat) :
    (runCallers cfg now (FetchOutcome.success tr) (initialRun n)
        (List.replicate n CallerAction.check
          ++ List.replicate n CallerAction.finishFetch)).fetchCount = n ∧
    (runCallers cfg now (FetchOutcome.success tr) (initialRun n)
        (List.replicate n CallerAction.check
          ++ List.replicate n CallerAction.finishFetch)).results
      = List.replicate n (some tr.access_token) := by
  rw [runCallers_append]
  rw [checkPhase cfg now (FetchOutcome.success tr) n (initialRun n)
      (le_refl n) rfl]
  simp only [initialRun, Nat.sub_self, Nat.zero_add]
  obtain ⟨h1, h2⟩ := fetchPhase cfg now tr n ⟨initialState, 0, n, [], 0⟩ rfl
  refine ⟨by rw [h1]; simp, by rw [h2]; simp⟩

/-- C3: on a successful fetch with background refresh enabled, the delay
argument handed to `setInterval` is `this.expiration` — the absolute
epoch expiration instant just computed — not the remaining lifetime
`(expires_in - refreshBeforeExpiration) * 1000`.  At epoch time
1700000000000 with `expires_in = 3600` and margin 60 the armed delay is
1700003540000 ms (about 54 years), while firing at the computed
expiration instant would require a delay of 3540000 ms. -/
theorem setInterval_delay_is_absolute_instant :
    (updateToken cfg0 1700000000000 (FetchOutcome.success ⟨"tok", 3600⟩)
        initialState).1.timer = some 1700003540000 ∧
    some (1700003540000 : Int) ≠ some (((3600 : Int) - 60) * 1000) := by
  refine ⟨rfl, by decide⟩

/-- C4: a failed `updateToken` leaves `accessToken` and `expiration`
exactly as they were, cancels the previously armed timer (lines 64-66 run
before the fetch) and arms no new one (the catch block writes nothing). -/
theorem updateToken_failure_atomic (cfg : ClientCredentialsConfig)
    (now : Int) (s : CCState) :
    (updateToken cfg now FetchOutcome.failure s).1.accessToken = s.accessToken ∧
    (updateToken cfg now FetchOutcome.failure s).1.expiration = s.expiration ∧
    (updateToken cfg now FetchOutcome.failure s).1.timer = none :=
  ⟨rfl, rfl, rfl⟩

/-- C5 counterexample: after a fetch at clock time 1000000 whose
`expires_in` (60) equals the refresh margin (60), the stored expiration is
the fetch instant itself; a `getAccessToken` call at that same clock
millisecond finds `expiration < now` false (the check on line 53 is
strict), so it serves the cached token with no endpoint request instead of
fetching — the token is not "treated as already expired". -/
theorem boundary_lifetime_token_served :
    boundaryState.expiration = some 1000000 ∧
    getAccessToken cfg0 1000000 FetchOutcome.failure boundaryState
      = (some "tok", boundaryState, []) :=
  ⟨rfl, rfl⟩

/-- C5 (amended): the stored expiration is
`fetch time + (expires_in - refreshBeforeExpiration) * 1000` (epoch ms);
whenever `expires_in ≤ refreshBeforeExpiration` this instant is at or
before the fetch time, so a `getAccessToken` call at any strictly later
clock time triggers a new fetch.  (Only a call in the very same clock
millisecond with `expires_in` exactly equal to the margin can still be
served the token, since the staleness check is strict.) -/
theorem nonpositive_lifetime_expired_later (cfg : ClientCredentialsConfig)
    (now now' : Int) (tr : TokenResponse) (outcome : FetchOutcome) (s : CCState)
    (hle : tr.expires_in ≤ cfg.refreshBeforeExpiration) (hlt : now < now') :
    (updateToken cfg now (FetchOutcome.success tr) s).1.expiration
      = some (now + (tr.expires_in - cfg.refreshBeforeExpiration) * 1000) ∧
    (getAccessToken cfg now' outcome
        ((updateToken cfg now (FetchOutcome.success tr) s).1)).2.2
      = [tokenRequest cfg] := by
  rw [updateToken_success]
  have hstale : needsRefresh now'
      ({ accessToken := some tr.access_token,
         expiration := some (now + (tr.expires_in - cfg.refreshBeforeExpiration) * 1000),
         timer := if cfg.disableBackgroundRefresh then none
                  else some (now + (tr.expires_in - cfg.refreshBeforeExpiration) * 1000) } :
        CCState) = true := by
    simp only [needsRefresh, decide_eq_true_eq]
    nlinarith [hle, hlt]
  refine ⟨rfl, ?_⟩
  simp only [getAccessToken, hstale, if_true]
  cases outcome <;> simp [updateToken_success, updateToken_failure]

/-- Witness for `nonpositive_lifetime_expired_later` with a zero-lifetime
response fetched at time 0 and re-queried at time 1. -/
theorem nonpositive_lifetime_expired_later_witness :
    (updateToken cfg0 0 (FetchOutcome.success ⟨"tok", 0⟩) initialState).1.expiration
      = some ((0 : Int) + ((0 : Int) - cfg0.refreshBeforeExpiration) * 1000) ∧
    (getAccessToken cfg0 1 FetchOutcome.failure
        ((updateToken cfg0 0 (FetchOutcome.success ⟨"tok", 0⟩) initialState).1)).2.2
      = [tokenRequest cfg0] :=
  nonpositive_lifetime_expired_later cfg0 0 1 ⟨"tok", 0⟩ FetchOutcome.failure
    initialState (by decide) (by decide)

/-- C6: when a token is cached and its expiration instant is strictly in
the future, `getAccessToken` returns the cached token, leaves the state
untouched and issues no endpoint request (fast path, lines 50-57). -/
theorem cached_token_fast_path (cfg : ClientCredentialsConfig) (now e : Int)
    (tok : String) (outcome : FetchOutcome) (s : CCState)
    (hTok : s.accessToken = some tok) (hExp : s.expiration = some e)
    (hFut : now < e) :
    getAccessToken cfg now outcome s = (some tok, s, []) := by
  have hn : needsRefresh now s = false := by
    simp only [needsRefresh, hTok, hExp, decide_eq_false_iff_not]
    omega
  simp [getAccessToken, hn, hTok]

/-- Witness for `cached_token_fast_path` on a token expiring at time 10,
queried at time 5. -/
theorem cached_token_fast_path_witness :
    getAccessToken cfg0 5 FetchOutcome.failure ⟨some "tok", some 10, none⟩
      = (some "tok", ⟨some "tok", some 10, none⟩, []) :=
  cached_token_fast_path cfg0 5 10 "tok" FetchOutcome.failure
    ⟨some "tok", some 10, none⟩ rfl rfl (by decide)

/-- C7: `close` cancels the pending timer and clears both token fields;
it is idempotent; and a `getAccessToken` after `close` behaves exactly as
on a freshly constructed manager — in particular it performs a fresh
fetch cycle (one endpoint request). -/
theorem close_clears_state (cfg : ClientCredentialsConfig) (now : Int)
    (outcome : FetchOutcome) (s : CCState) :
    (close s).accessToken = none ∧ (close s).expiration = none ∧
    (close s).timer = none ∧
    close (close s) = close s ∧
    getAccessToken cfg now outcome (close s)
      = getAccessToken cfg now outcome initialState ∧
    (getAccessToken cfg now outcome (close s)).2.2 = [tokenRequest cfg] := by
  refine ⟨rfl, rfl, rfl, rfl, rfl, ?_⟩
  cases outcome <;> rfl

/-- C8: in every state reachable from construction by any sequence of
`getAccessToken`, `updateToken` and `close` calls with any fetch
outcomes, the access token is present exactly when the expiration is
present — the pair is set and cleared together. -/
theorem token_expiration_pair_invariant (cfg : ClientCredentialsConfig)
    (s : CCState) (h : Reachable cfg s) :
    s.accessToken.isSome = s.expiration.isSome := by
  induction h with
  | init => rfl
  | getStep s now outcome _ ih =>
      cases hn : needsRefresh now s with
      | false => simpa [getAccessToken, hn] using ih
      | true => simpa [getAccessToken, hn] using updateToken_pair_present cfg now outcome s ih
  | updateStep s now outcome _ ih => exact updateToken_pair_present cfg now outcome s ih
  | closeStep s _ _ => rfl

/-- Witness for `token_expiration_pair_invariant` at the state reached by
one successful `updateToken` from construction. -/
theorem token_expiration_pair_invariant_witness :
    (updateToken cfg0 0 (FetchOutcome.success ⟨"tok", 3600⟩) initialState).1.accessToken.isSome
      = (updateToken cfg0 0 (FetchOutcome.success ⟨"tok", 3600⟩) initialState).1.expiration.isSome :=
  token_expiration_pair_invariant cfg0
    (updateToken cfg0 0 (FetchOutcome.success ⟨"tok", 3600⟩) initialState).1
    (Reachable.updateStep initialState 0 (FetchOutcome.success ⟨"tok", 3600⟩) Reachable.init)

/-- C9: every fetch cycle — whatever its outcome and the prior state —
issues exactly one HTTP POST to the configured token endpoint, form
encoded with `grant_type=client_credentials`, `client_id`,
`client_secret`, and `scope` equal to the configured scopes joined with a
single space, under content-type `application/x-www-form-urlencoded`. -/
theorem fetch_cycle_single_post (cfg : ClientCredentialsConfig) (now : Int)
    (outcome : FetchOutcome) (s : CCState) :
    (updateToken cfg now outcome s).2
      = [{ method := "post", url := cfg.tokenEndpoint,
           form := [("grant_type", "client_credentials"),
                    ("client_id", cfg.clientId),
                    ("client_secret", cfg.clientSecret),
                    ("scope", String.intercalate " " cfg.scopes)],
           contentType := "application/x-www-form-urlencoded" }] := by
  cases outcome <;> rfl

/-- C10 counterexample: a delete request whose data is present (not
`undefined`) but falsy — here the empty string — is NOT rejected by
`send`: the truthiness test on line 187 passes it through, and since the
method is not `get` the data is routed to the request body. -/
theorem delete_empty_string_not_rejected :
    JsValue.string "" ≠ JsValue.undef ∧
    routeSendData "delete" (JsValue.string "")
      = Except.ok { params := JsValue.undef, body := JsValue.string "" } :=
  ⟨by decide, rfl⟩

/-- C10 (amended): `send` throws `Delete requests cannot have data`
before any network request exactly when the method is `delete` and the
data is truthy (not merely non-undefined); otherwise data is routed to
the query parameters when the method is `get` and to the request body
when it is not — including a delete with present-but-falsy data. -/
theorem delete_data_routing (method : String) (data : JsValue) :
    (routeSendData method data = Except.error "Delete requests cannot have data"
      ↔ method = "delete" ∧ data.truthy = true) ∧
    (method = "delete" → data.truthy = false →
      routeSendData method data
        = Except.ok { params := JsValue.undef, body := data }) ∧
    (method = "get" →
      routeSendData method data
        = Except.ok { params := data, body := JsValue.undef }) ∧
    (method ≠ "get" → ¬(method = "delete" ∧ data.truthy = true) →
      routeSendData method data
        = Except.ok { params := JsValue.undef, body := data }) := by
  by_cases hd : method = "delete" <;> by_cases hg : method = "get" <;>
    by_cases ht : data.truthy <;> simp_all [routeSendData]

/-- Witness for `delete_data_routing`: a delete carrying a (truthy)
object is rejected. -/
theorem delete_data_routing_witness :
    routeSendData "delete" JsValue.object
      = Except.error "Delete requests cannot have data" :=
  (delete_data_routing "delete" JsValue.object).1.mpr ⟨rfl, rfl⟩
